import Mathlib

/-!
Verification development for the Catalyst community-gamification bot.

The definitions below are a shallow embedding of the event-scoring and
world-state pipeline of the repository:

* `Catalyst.analyzeMessage` embeds `DramaAnalytics.analyzeMessage`
  (src/core/dramaAnalytics.ts).
* `Catalyst.Capture` embeds `EventCaptureEngine.handleMessageCreate` and
  `EventCaptureEngine.analyzeReactionPatterns` (the buffer-based capture
  engine).
* `Catalyst.Gateway` embeds the singleton `EventCaptureEngine.init`
  (the gateway-event forwarder in src/core/eventCapture.ts).
* `Catalyst.Bus` embeds `EventBus.emit` (src/engine/eventBus.ts) and
  `PluginManager.emit` (the plugin manager).
* `Catalyst.Engine` embeds `WorldStateManager.addDramaEvent`
  (src/engine/worldState.ts) and `DynamicEventGenerator.tryTriggerEvents`
  (src/engine/eventGenerator.ts).
* `Catalyst.FactionSys` embeds the in-memory `FactionSystem`
  (create/join/leave/dissolve/alliance aura) from src/core/factionSystem.ts.
* `Catalyst.FactionDbPlugin` embeds the database-backed faction plugin
  handlers (`handleCreateFaction`, `handleJoinFaction` in
  src/plugins/faction-system/index.ts), with the Supabase table state
  modelled as in-memory row lists.

JavaScript `Map` objects are modelled as association lists with
JS-faithful `get`/`set`/`delete` operations.  JS numbers are modelled as
`Nat`/`Int` (all arithmetic in the embedded fragments is exact integer
arithmetic; the two floating-point comparisons, the uppercase ratio test
and the split-vote ratio test, are modelled by the exact integer
inequalities they compute for the operand ranges that occur, as noted at
their definitions).  Code that would raise a TypeError (a failed `!`
non-null assertion) is modelled with `Option`.
-/

set_option maxHeartbeats 1000000

namespace Catalyst

/-- JS `Map.get`: first binding of the key in the association list. -/
def mapGet : List (String × α) → String → Option α
  | [], _ => none
  | p :: t, k => if p.1 == k then some p.2 else mapGet t k

/-- JS `Map.set`: replace the binding in place if the key is present,
otherwise append a new binding (JS maps preserve insertion order). -/
def mapSet (m : List (String × α)) (k : String) (v : α) : List (String × α) :=
  if m.any (fun p => p.1 == k) then
    m.map (fun p => if p.1 == k then (k, v) else p)
  else
    m ++ [(k, v)]

/-- JS `Map.delete`. -/
def mapDelete (m : List (String × α)) (k : String) : List (String × α) :=
  m.filter (fun p => !(p.1 == k))

theorem mapGet_mapSet_self (m : List (String × α)) (k : String) (v : α) :
    mapGet (mapSet m k v) k = some v := by
  unfold mapSet
  by_cases hany : (m.any fun p => p.1 == k) = true
  · rw [if_pos hany]
    induction m with
    | nil => simp at hany
    | cons p t ih =>
      by_cases hp : (p.1 == k) = true
      · simp [mapGet, hp]
      · have hp' : (p.1 == k) = false := by simpa using hp
        simp only [List.any_cons, hp', Bool.false_or] at hany
        simp only [List.map_cons, hp', if_false, Bool.false_eq_true]
        rw [mapGet]
        rw [if_neg (by simp [hp'])]
        exact ih hany
  · rw [if_neg hany]
    induction m with
    | nil => simp [mapGet]
    | cons p t ih =>
      simp only [List.any_cons, Bool.or_eq_true, not_or] at hany
      have hp' : (p.1 == k) = false := by
        cases h : p.1 == k
        · rfl
        · exact absurd h hany.1
      simp only [List.cons_append]
      rw [mapGet, if_neg (by simp [hp'])]
      exact ih (by simpa using hany.2)

theorem mapGet_mapDelete_self (m : List (String × α)) (k : String) :
    mapGet (mapDelete m k) k = none := by
  unfold mapDelete
  induction m with
  | nil => simp [mapGet]
  | cons p t ih =>
    by_cases hp : (p.1 == k) = true
    · simpa [List.filter, hp] using ih
    · have hp' : (p.1 == k) = false := by simpa using hp
      simp only [List.filter, hp', Bool.not_false]
      rw [mapGet, if_neg (by simp [hp'])]
      exact ih

theorem mem_mapSet (m : List (String × α)) (k : String) (v : α) (p : String × α)
    (hp : p ∈ mapSet m k v) : p ∈ m ∨ p = (k, v) := by
  unfold mapSet at hp
  split at hp
  · rw [List.mem_map] at hp
    obtain ⟨a, ha, hav⟩ := hp
    by_cases h : a.1 = k
    · right
      rw [← hav]
      simp [h]
    · left
      have h' : (a.1 == k) = false := beq_false_of_ne h
      rw [← hav]
      simp [h']
      exact ha
  · rw [List.mem_append] at hp
    rcases hp with h | h
    · exact Or.inl h
    · right; simpa using h

theorem mem_mapDelete (m : List (String × α)) (k : String) (p : String × α)
    (hp : p ∈ mapDelete m k) : p ∈ m ∧ p.1 ≠ k := by
  unfold mapDelete at hp
  rw [List.mem_filter] at hp
  refine ⟨hp.1, ?_⟩
  have := hp.2
  simpa using this

/-! ## Signal Scorer: `DramaAnalytics.analyzeMessage` -/

/-- The character class `[A-Z]` used by the uppercase-ratio computation. -/
def isUpperAZ (c : Char) : Bool := decide ('A' ≤ c) && decide (c ≤ 'Z')

/-- The character class `[A-Za-z]` used by the letter count. -/
def isAlphaAZ (c : Char) : Bool :=
  isUpperAZ c || (decide ('a' ≤ c) && decide (c ≤ 'z'))

/-- The fields of a Discord message that the embedded fragments read:
`content`, `mentions.users`, `mentions.roles`, `reference` (reply flag),
`author.bot` and `author.id`. -/
structure Message where
  content : String
  mentionUsers : List String
  mentionRoles : List String
  isReply : Bool
  authorBot : Bool
  authorId : String
deriving Repr, DecidableEq

/-- Embeds `DramaAnalytics.analyzeMessage` (src/core/dramaAnalytics.ts).
The score factors, in source order: message length (`>100` and `>200`
thresholds), uppercase ratio (`upperCaseRatio > 0.5 && allLetters > 10`;
for integer counts `upper/all > 0.5` is exactly `2*upper > all`, and the
`allLetters > 0` guard is subsumed by `allLetters > 10`), exclamation and
question counts (`>2` each), mention count capped at 3, and reply flag.
Bot-authored messages return 0 before any scoring.  The result is
`Math.min(10, score)`.  (The method also pushes into per-channel/user
tracking maps; those writes are not read by any claim and are not part of
the returned score.) -/
def analyzeMessage (m : Message) : Nat :=
  if m.authorBot then 0
  else
    let chars := m.content.toList
    let lengthScore :=
      (if m.content.length > 100 then 1 else 0) +
      (if m.content.length > 200 then 1 else 0)
    let upperCaseLetters := (chars.filter isUpperAZ).length
    let allLetters := (chars.filter isAlphaAZ).length
    let capsScore := if 2 * upperCaseLetters > allLetters ∧ allLetters > 10 then 2 else 0
    let exclamationCount := (chars.filter (fun c => c == '!')).length
    let questionCount := (chars.filter (fun c => c == '?')).length
    let punctScore :=
      (if exclamationCount > 2 then 1 else 0) +
      (if questionCount > 2 then 1 else 0)
    let mentionScore := min 3 m.mentionUsers.length
    let replyScore := if m.isReply then 1 else 0
    min 10 (lengthScore + capsScore + punctScore + mentionScore + replyScore)

/-- C1: for every input message, `analyzeMessage` returns an integer score
between 0 and 10, and bot-authored messages are always scored 0. -/
theorem analyzeMessage_score_bounds (m : Message) :
    0 ≤ analyzeMessage m ∧ analyzeMessage m ≤ 10 ∧
      (m.authorBot = true → analyzeMessage m = 0) := by
  refine ⟨Nat.zero_le _, ?_, ?_⟩
  · unfold analyzeMessage
    split
    · exact Nat.zero_le _
    · exact Nat.min_le_left _ _
  · intro h
    unfold analyzeMessage
    rw [if_pos h]

/-- Witness for C1 at a concrete bot-authored message. -/
theorem analyzeMessage_score_bounds_witness :
    0 ≤ analyzeMessage ⟨"hello", [], [], false, true, "bot1"⟩ ∧
      analyzeMessage ⟨"hello", [], [], false, true, "bot1"⟩ = 0 :=
  ⟨(analyzeMessage_score_bounds ⟨"hello", [], [], false, true, "bot1"⟩).1,
   (analyzeMessage_score_bounds ⟨"hello", [], [], false, true, "bot1"⟩).2.2 rfl⟩

/-! ## The DramaEvent record of src/types/index.ts

`type` and `factionsInvolved` (and `timestamp`, `location`) are optional
fields in the source interface; the `type` enum is modelled by its string
value. -/

namespace Types

structure DramaEvent where
  id : String
  type : Option String
  participants : List String
  trigger : String
  score : Int
  outcome : String
  timestamp : Option Nat
  factionsInvolved : Option (List String)
  location : Option String
deriving Repr, DecidableEq

end Types

/-! ## Event Capture Engine: `handleMessageCreate` (buffer-based engine) -/

/-- Rolling-buffer push: append, then `shift()` the oldest element when the
buffer exceeds its cap. -/
def pushBounded (l : List α) (x : α) (maxLen : Nat) : List α :=
  let l2 := l ++ [x]
  if l2.length > maxLen then l2.tail else l2

def MAX_MESSAGES : Nat := 1000
def MAX_MENTION_EVENTS : Nat := 200

/-- The message and mention buffers of `EventCaptureEngine`. -/
structure CaptureState where
  messages : List Message
  mentionEvents : List Message
deriving Repr, DecidableEq

def CaptureState.empty : CaptureState := ⟨[], []⟩

/-- Outcome of one `handleMessageCreate` call: the updated buffers, the
drama score computed for the message, whether the high-drama branch
(`processDramaticMessage`) ran, and the DramaEvents created by the call. -/
structure MessageCreateResult where
  state : CaptureState
  dramaScore : Nat
  dramaticProcessed : Bool
  createdEvents : List Types.DramaEvent
deriving Repr, DecidableEq

/-- Embeds `EventCaptureEngine.handleMessageCreate`: skip bot messages;
push into the bounded message buffer; track mentions; compute
`dramaScore = analyzeMessage(message)`; run `processDramaticMessage` only
when `dramaScore > 5` (strict comparison in the source).  The body of
`processDramaticMessage` is a `console.log` only — it constructs no
DramaEvent — so `createdEvents` is `[]` on every path, mirroring the
source. -/
def handleMessageCreate (s : CaptureState) (m : Message) : MessageCreateResult :=
  if m.authorBot then ⟨s, 0, false, []⟩
  else
    let messages2 := pushBounded s.messages m MAX_MESSAGES
    let mentionEvents2 :=
      if m.mentionUsers.length > 0 then pushBounded s.mentionEvents m MAX_MENTION_EVENTS
      else s.mentionEvents
    let dramaScore := analyzeMessage m
    ⟨⟨messages2, mentionEvents2⟩, dramaScore, decide (dramaScore > 5), []⟩

/-- The Scenario A message: sent by userA, not a reply, two user mentions. -/
def scenarioMessage : Message :=
  { content := "WHY DID YOU DO THIS!!! @userB @userC"
  , mentionUsers := ["userB", "userC"]
  , mentionRoles := []
  , isReply := false
  , authorBot := false
  , authorId := "userA" }

/-- C2 counterexample: the Scenario A message does not trigger any
DramaEvent — `handleMessageCreate` requires `dramaScore > 5` (strict),
the message scores exactly 5, and the high-drama branch creates no event
in any case. -/
theorem scenario_a_counterexample :
    (handleMessageCreate CaptureState.empty scenarioMessage).dramaticProcessed = false ∧
      (handleMessageCreate CaptureState.empty scenarioMessage).createdEvents.length ≠ 1 := by
  constructor
  · decide
  · decide

/-- C2 amended: the Scenario A message scores exactly 5, but with the
threshold at its default the trigger comparison is strict (`score > 5`),
so the message is not processed as dramatic and no DramaEvent is
created. -/
theorem scenario_a_scores_five_no_event :
    analyzeMessage scenarioMessage = 5 ∧
      (handleMessageCreate CaptureState.empty scenarioMessage).dramaticProcessed = false ∧
      (handleMessageCreate CaptureState.empty scenarioMessage).createdEvents = [] := by
  refine ⟨by decide, by decide, by decide⟩

/-! ## Gateway-forwarding engine: `EventCaptureEngine.init`
(src/core/eventCapture.ts) -/

/-- The four gateway hooks `init` registers on the Discord client; each
hook republishes its platform callback on the internal emitter. -/
inductive GatewayHook
  | messageCreate
  | messageReactionAdd
  | messageReactionRemove
  | voiceStateUpdate
deriving Repr, DecidableEq

/-- State of the singleton gateway engine: the `initialised` flag and the
multiset of registered gateway hooks (a listener registered twice would
appear twice and republish every callback twice). -/
structure GatewayEngineState where
  initialised : Bool
  hooks : List GatewayHook
deriving Repr, DecidableEq

def GatewayEngineState.fresh : GatewayEngineState := ⟨false, []⟩

/-- Embeds `EventCaptureEngine.init`: `if (this.initialised) return;`
then set the flag and register the four gateway hooks. -/
def gatewayInit (s : GatewayEngineState) : GatewayEngineState :=
  if s.initialised then s
  else
    { initialised := true
    , hooks := s.hooks ++
        [GatewayHook.messageCreate, GatewayHook.messageReactionAdd,
         GatewayHook.messageReactionRemove, GatewayHook.voiceStateUpdate] }

/-- C10: `init` is idempotent — after the first call every further call is
a no-op, and however many times it is called (n+1 times from the fresh
singleton state), each gateway hook is registered exactly once, so each
platform callback is republished exactly once. -/
theorem gatewayInit_idempotent (n : Nat) :
    gatewayInit^[n + 1] GatewayEngineState.fresh = gatewayInit GatewayEngineState.fresh ∧
      ∀ h : GatewayHook, (gatewayInit^[n + 1] GatewayEngineState.fresh).hooks.count h = 1 := by
  have hstep : gatewayInit (gatewayInit GatewayEngineState.fresh) =
      gatewayInit GatewayEngineState.fresh := by decide
  have hiter : ∀ m : Nat,
      gatewayInit^[m + 1] GatewayEngineState.fresh = gatewayInit GatewayEngineState.fresh := by
    intro m
    induction m with
    | zero => simp
    | succ k ih => rw [Function.iterate_succ_apply', ih, hstep]
  refine ⟨hiter n, ?_⟩
  intro h
  rw [hiter n]
  cases h <;> decide

/-! ## Bus dispatch: `EventBus.emit` vs `PluginManager.emit`

A subscriber handler is abstracted to its observable dispatch behaviour:
it either returns normally (and its id is appended to the run log) or
throws (raising its id as the error).  What is being verified is the
dispatch loop around the handlers, which is translated verbatim. -/

namespace Bus

structure Subscriber where
  id : String
  throwsErr : Bool
deriving Repr, DecidableEq

/-- Invoke one subscriber handler on the current run log. -/
def runSubscriber (sub : Subscriber) (log : List String) : Except String (List String) :=
  if sub.throwsErr then Except.error sub.id else Except.ok (log ++ [sub.id])

/-- Embeds `EventBus.emit` (src/engine/eventBus.ts):
`(this.handlers[event.type] || []).forEach(fn => fn(event))` — `forEach`
has no try/catch around the callback, so an exception thrown by one
handler propagates out of `emit` and the remaining handlers are never
invoked.  Returns the run log and the propagated error, if any. -/
def eventBusEmit : List Subscriber → List String → List String × Option String
  | [], log => (log, none)
  | sub :: rest, log =>
    match runSubscriber sub log with
    | Except.ok log2 => eventBusEmit rest log2
    | Except.error e => (log, some e)

/-- Embeds the dispatch loop of `PluginManager.emit`: each plugin handler
invocation is wrapped in try/catch; a caught error is logged (and the
faulty plugin unloaded for future events) and the loop continues with the
next plugin.  Returns the run log and the list of logged errors. -/
def pluginManagerEmit : List Subscriber → List String → List String × List String
  | [], log => (log, [])
  | sub :: rest, log =>
    match runSubscriber sub log with
    | Except.ok log2 => pluginManagerEmit rest log2
    | Except.error e =>
      let r := pluginManagerEmit rest log
      (r.1, e :: r.2)

/-- C8 counterexample: on `EventBus.emit`, with two subscribers where the
first throws, the second never runs — its id is absent from the run log —
so a throwing subscriber does prevent the remaining subscribers of the
same event from running. -/
theorem eventBus_throwing_subscriber_blocks :
    "b" ∉ (eventBusEmit [⟨"a", true⟩, ⟨"b", false⟩] []).1 := by
  decide

/-- C8 amended: `PluginManager.emit` isolates per-subscriber exceptions —
every non-throwing subscriber runs, in order, no matter which other
subscribers throw — while `EventBus.emit` does not: it runs exactly the
subscribers before the first throwing one. -/
theorem pluginManagerEmit_isolates_eventBusEmit_stops
    (subs : List Subscriber) (log : List String) :
    (pluginManagerEmit subs log).1 =
        log ++ (subs.filter (fun s => !s.throwsErr)).map Subscriber.id ∧
      (eventBusEmit subs log).1 =
        log ++ (subs.takeWhile (fun s => !s.throwsErr)).map Subscriber.id := by
  induction subs generalizing log with
  | nil => simp [pluginManagerEmit, eventBusEmit]
  | cons sub rest ih =>
    cases hth : sub.throwsErr
    · have ih2 := ih (log ++ [sub.id])
      constructor
      · rw [pluginManagerEmit]
        simp only [runSubscriber, hth, if_false, Bool.false_eq_true]
        rw [ih2.1]
        simp [hth, List.filter_cons]
      · rw [eventBusEmit]
        simp only [runSubscriber, hth, if_false, Bool.false_eq_true]
        rw [ih2.2]
        simp [hth, List.takeWhile_cons]
    · have ih2 := ih log
      constructor
      · rw [pluginManagerEmit]
        simp only [runSubscriber, hth, if_true]
        rw [ih2.1]
        simp [hth, List.filter_cons]
      · rw [eventBusEmit]
        simp only [runSubscriber, hth, if_true]
        simp [hth, List.takeWhile_cons]

end Bus

/-! ## World state and the dynamic event generator (src/engine) -/

namespace Engine

structure WorldUser where
  id : String
  name : String
  xp : Int
  dramaPoints : Int
  badges : List String
  factionId : Option String
deriving Repr, DecidableEq

structure Faction where
  id : String
  name : String
  members : List String
  dramaScore : Int
  level : Int
deriving Repr, DecidableEq

/-- The DramaEvent record of src/engine/worldState.ts. -/
structure DramaEvent where
  id : String
  type : String
  timestamp : Nat
  participants : List String
  description : String
  impact : Int
deriving Repr, DecidableEq

structure WorldState where
  users : List (String × WorldUser)
  factions : List (String × Faction)
  dramaTimeline : List DramaEvent
  season : Nat
  lastEvent : Nat
deriving Repr, DecidableEq

/-- Embeds `WorldStateManager.addDramaEvent`: push onto the timeline and
record the event time. -/
def addDramaEvent (s : WorldState) (e : DramaEvent) : WorldState :=
  { s with dramaTimeline := s.dramaTimeline ++ [e], lastEvent := e.timestamp }

/-- A registered dynamic event (src/engine/eventGenerator.ts). -/
structure DynamicEvent where
  name : String
  trigger : WorldState → Bool
  execute : WorldState → DramaEvent
  cooldown : Nat

/-- The cooldown test of `tryTriggerEvents`:
`!this.lastTrigger[event.name] || now - this.lastTrigger[event.name] > event.cooldown`.
In JS both `undefined` and `0` are falsy, so a recorded last-trigger time
of 0 also passes the first disjunct. -/
def cooldownOpen (lastTrigger : List (String × Nat)) (name : String)
    (now cooldown : Nat) : Bool :=
  match mapGet lastTrigger name with
  | none => true
  | some last => last == 0 || decide (now - last > cooldown)

/-- Embeds `DynamicEventGenerator.tryTriggerEvents`: for each registered
event in order, if its trigger fires and its per-name cooldown has
elapsed, execute it, append the produced DramaEvent to the world state
(`state.addDramaEvent(drama)`), and record `lastTrigger[name] = now`. -/
def tryTriggerEvents (now : Nat) (events : List DynamicEvent) (st : WorldState)
    (lastTrigger : List (String × Nat)) : WorldState × List (String × Nat) :=
  match events with
  | [] => (st, lastTrigger)
  | e :: rest =>
    if e.trigger st = true ∧ cooldownOpen lastTrigger e.name now e.cooldown = true then
      tryTriggerEvents now rest (addDramaEvent st (e.execute st)) (mapSet lastTrigger e.name now)
    else
      tryTriggerEvents now rest st lastTrigger

/-- Run the generator twice, at times t1 then t2, from a fresh cooldown
table, and return the final world state. -/
def runTwoChecks (e : DynamicEvent) (st0 : WorldState) (t1 t2 : Nat) : WorldState :=
  (tryTriggerEvents t2 [e] (tryTriggerEvents t1 [e] st0 []).1
    (tryTriggerEvents t1 [e] st0 []).2).1

/-- C3: two qualifying checks of the same event category: separated by
less than the cooldown window, exactly one DramaEvent is created;
separated by more than the window, exactly two are. -/
theorem cooldown_gating (e : DynamicEvent) (st0 : WorldState) (t1 t2 : Nat)
    (ht1 : 0 < t1) (h12 : t1 ≤ t2)
    (htr1 : e.trigger st0 = true)
    (htr2 : e.trigger (addDramaEvent st0 (e.execute st0)) = true) :
    (t2 - t1 < e.cooldown →
      (runTwoChecks e st0 t1 t2).dramaTimeline.length = st0.dramaTimeline.length + 1) ∧
    (e.cooldown < t2 - t1 →
      (runTwoChecks e st0 t1 t2).dramaTimeline.length = st0.dramaTimeline.length + 2) := by
  have hopen1 : cooldownOpen [] e.name t1 e.cooldown = true := rfl
  have hfirst : tryTriggerEvents t1 [e] st0 [] =
      (addDramaEvent st0 (e.execute st0), [(e.name, t1)]) := by
    rw [tryTriggerEvents, if_pos ⟨htr1, hopen1⟩]
    rfl
  have hbeq : (t1 == 0) = false := by
    simp only [beq_eq_false_iff_ne, ne_eq]
    omega
  have hget : mapGet [(e.name, t1)] e.name = some t1 := by
    simp [mapGet]
  constructor
  · intro hlt
    have hopen2 : cooldownOpen [(e.name, t1)] e.name t2 e.cooldown = false := by
      unfold cooldownOpen
      rw [hget]
      simp only [hbeq, Bool.false_or, decide_eq_false_iff_not]
      omega
    have hsecond : tryTriggerEvents t2 [e] (addDramaEvent st0 (e.execute st0)) [(e.name, t1)] =
        (addDramaEvent st0 (e.execute st0), [(e.name, t1)]) := by
      rw [tryTriggerEvents,
        if_neg (fun h => by rw [hopen2] at h; simpa using h.2)]
      rfl
    unfold runTwoChecks
    rw [hfirst]
    show (tryTriggerEvents t2 [e] (addDramaEvent st0 (e.execute st0))
      [(e.name, t1)]).1.dramaTimeline.length = st0.dramaTimeline.length + 1
    rw [hsecond]
    simp [addDramaEvent]
  · intro hgt
    have hopen2 : cooldownOpen [(e.name, t1)] e.name t2 e.cooldown = true := by
      unfold cooldownOpen
      rw [hget]
      simp only [hbeq, Bool.false_or, decide_eq_true_eq]
      omega
    have hsecond : tryTriggerEvents t2 [e] (addDramaEvent st0 (e.execute st0)) [(e.name, t1)] =
        (addDramaEvent (addDramaEvent st0 (e.execute st0))
            (e.execute (addDramaEvent st0 (e.execute st0))),
          mapSet [(e.name, t1)] e.name t2) := by
      rw [tryTriggerEvents, if_pos ⟨htr2, hopen2⟩]
      rfl
    unfold runTwoChecks
    rw [hfirst]
    show (tryTriggerEvents t2 [e] (addDramaEvent st0 (e.execute st0))
      [(e.name, t1)]).1.dramaTimeline.length = st0.dramaTimeline.length + 2
    rw [hsecond]
    simp [addDramaEvent]

/-- The example Coup event with its 1-hour cooldown, with the
probabilistic trigger forced to fire. -/
def coupDramaEvent : DramaEvent :=
  ⟨"coup-1", "coup", 1000, [], "A sudden coup shakes the world!", 50⟩

def coupDynamicEvent : DynamicEvent :=
  ⟨"Coup", fun _ => true, fun _ => coupDramaEvent, 3600000⟩

def emptyWorld : WorldState := ⟨[], [], [], 1, 0⟩

/-- Witness for C3 at a concrete event and concrete times within the
cooldown window. -/
theorem cooldown_gating_witness :
    0 < 1000 ∧ 1000 ≤ 2000 ∧ 2000 - 1000 < 3600000 ∧
      (runTwoChecks coupDynamicEvent emptyWorld 1000 2000).dramaTimeline.length =
        emptyWorld.dramaTimeline.length + 1 :=
  ⟨by decide, by decide, by decide,
   (cooldown_gating coupDynamicEvent emptyWorld 1000 2000 (by decide) (by decide)
     rfl rfl).1 (by decide)⟩

end Engine

theorem mapGet_mem (m : List (String × α)) (k : String) (v : α)
    (h : mapGet m k = some v) : (k, v) ∈ m := by
  induction m with
  | nil => simp [mapGet] at h
  | cons p t ih =>
    rw [mapGet] at h
    by_cases hp : (p.1 == k) = true
    · rw [if_pos hp] at h
      have h1 : p.1 = k := by simpa using hp
      have h2 : p.2 = v := by simpa using h
      have hkv : (k, v) = p := by
        rw [← h1, ← h2]
      rw [hkv]
      exact List.mem_cons_self _ _
    · rw [if_neg hp] at h
      exact List.mem_cons_of_mem _ (ih h)

/-- Replace the first element satisfying the predicate, mirroring a JS
in-place mutation of the object returned by `Array.find`. -/
def replaceFirst (p : α → Bool) (v : α) : List α → List α
  | [] => []
  | x :: t => if p x then v :: t else x :: replaceFirst p v t

theorem mem_replaceFirst (p : α → Bool) (v : α) (l : List α) (a : α)
    (ha : a ∈ replaceFirst p v l) : a ∈ l ∨ a = v := by
  induction l with
  | nil => simp [replaceFirst] at ha
  | cons x t ih =>
    rw [replaceFirst] at ha
    by_cases hx : p x = true
    · rw [if_pos hx] at ha
      rcases List.mem_cons.mp ha with h | h
      · exact Or.inr h
      · exact Or.inl (List.mem_cons_of_mem _ h)
    · rw [if_neg hx] at ha
      rcases List.mem_cons.mp ha with h | h
      · exact Or.inl (h ▸ List.mem_cons_self _ _)
      · rcases ih h with h2 | h2
        · exact Or.inl (List.mem_cons_of_mem _ h2)
        · exact Or.inr h2

/-! ## In-memory FactionSystem (src/core/factionSystem.ts) -/

namespace FactionSys

/-- The Faction record of src/types/index.ts.  `createdAt` (a `Date`) is
modelled as a millisecond timestamp, `entropy` (a float, only ever set to
0 in this module) as a rational, and `color` by its string form. -/
structure Faction where
  id : String
  name : String
  description : Option String
  emoji : Option String
  power : Int
  entropy : Rat
  dramaWins : Int
  memberCount : Nat
  createdAt : Nat
  founderUserId : String
  color : Option String
deriving Repr, DecidableEq

structure FactionAllianceData where
  id : String
  factionIdA : String
  factionIdB : String
  strength : Int
  created : Nat
  lastInteraction : Nat
  auraScore : Int
deriving Repr, DecidableEq

/-- The three pieces of mutable state of the `FactionSystem` class:
`factions` and `userFactions` are JS Maps, `alliances` an array. -/
structure FactionSystemState where
  factions : List (String × Faction)
  userFactions : List (String × String)
  alliances : List FactionAllianceData
deriving Repr, DecidableEq

/-- Embeds `FactionSystem.getAllFactions`. -/
def getAllFactions (s : FactionSystemState) : List Faction :=
  s.factions.map Prod.snd

/-- Embeds `FactionSystem.getFactionMembers`. -/
def getFactionMembers (s : FactionSystemState) (factionId : String) : List String :=
  (s.userFactions.filter (fun p => p.2 == factionId)).map Prod.fst

/-- Embeds `FactionSystem.dissolveFaction`: If the faction is unknown,
return; otherwise delete every member mapping to it, delete the faction
(the Discord role/channel teardown calls are no-ops in this module), and
filter out every alliance referencing it. -/
def dissolveFaction (s : FactionSystemState) (factionId : String) : FactionSystemState :=
  if (mapGet s.factions factionId).isNone then s
  else
    { factions := mapDelete s.factions factionId
    , userFactions := s.userFactions.filter (fun p => !(p.2 == factionId))
    , alliances := s.alliances.filter
        (fun a => !(a.factionIdA == factionId) && !(a.factionIdB == factionId)) }

/-- Embeds `FactionSystem.leaveFaction`: the guard
`if (!factionId) return false` is falsy both for a missing binding and
for an empty-string faction id, so both return false; otherwise remove
the user, decrement the member count
(`Math.max(0, (memberCount || 1) - 1)` — `||` treats 0 as falsy), and
dissolve the faction if the count reaches zero.  The source reads
`this.factions.get(factionId)!` with a non-null assertion; the case where
that lookup fails (a TypeError at runtime) is `none`. -/
def leaveFaction (s : FactionSystemState) (userId : String) :
    Option (FactionSystemState × Bool) :=
  match mapGet s.userFactions userId with
  | none => some (s, false)
  | some factionId =>
    if factionId = "" then some (s, false)
    else
      match mapGet s.factions factionId with
      | none => none
      | some fac =>
        let fac2 := { fac with
          memberCount := (if fac.memberCount == 0 then 1 else fac.memberCount) - 1 }
        let s2 : FactionSystemState := { s with
          userFactions := mapDelete s.userFactions userId
        , factions := mapSet s.factions factionId fac2 }
        if fac2.memberCount ≤ 0 then some (dissolveFaction s2 factionId, true)
        else some (s2, true)

/-- Embeds `FactionSystem.joinFaction`: returns false for an unknown
faction; `if (currentFactionId)` — truthy only for a present, non-empty
id — first calls `leaveFaction`, then the user is mapped to the new
faction and its member count incremented (read through a non-null
assertion, `none` on failure). -/
def joinFaction (s : FactionSystemState) (userId factionId : String) :
    Option (FactionSystemState × Bool) :=
  if (mapGet s.factions factionId).isNone then some (s, false)
  else
    let step1 : Option FactionSystemState :=
      match mapGet s.userFactions userId with
      | some cur =>
        if cur = "" then some s
        else
          match leaveFaction s userId with
          | none => none
          | some r => some r.1
      | none => some s
    match step1 with
    | none => none
    | some s1 =>
      match mapGet s1.factions factionId with
      | none => none
      | some fac =>
        let fac2 := { fac with memberCount := fac.memberCount + 1 }
        some ({ s1 with
          userFactions := mapSet s1.userFactions userId factionId
        , factions := mapSet s1.factions factionId fac2 }, true)

/-- Faction name lookup used by the plot-twist outcome string:
`this.factions.get(id)?.name` interpolates as "undefined" when absent. -/
def factionNameOr (s : FactionSystemState) (fid : String) : String :=
  match mapGet s.factions fid with
  | some f => f.name
  | none => "undefined"

/-- Embeds `FactionSystem.triggerPlotTwist`: removes the alliance from the
array and constructs the plot-twist DramaEvent exactly as the source
object literal does — only `id`, `participants`, `trigger`, `score` and
`outcome` are set (`type`, `timestamp`, `factionsInvolved`, `location`
are left undefined).  The source ends with
`// TODO: Publish plot twist event to timeline`: the constructed event is
a dead local value, returned here so its shape can be inspected. -/
def triggerPlotTwist (s : FactionSystemState) (alliance : FactionAllianceData)
    (now : Nat) : FactionSystemState × Types.DramaEvent :=
  let s2 := { s with alliances := s.alliances.filter (fun a => !(a.id == alliance.id)) }
  let ev : Types.DramaEvent :=
    { id := "plot-twist-" ++ toString now
    , type := none
    , participants := [alliance.factionIdA, alliance.factionIdB]
    , trigger := "faction_plot_twist"
    , score := 8
    , outcome := "Alliance between " ++ factionNameOr s alliance.factionIdA ++
        " and " ++ factionNameOr s alliance.factionIdB ++
        " has ended in a creative plot twist!"
    , timestamp := none
    , factionsInvolved := none
    , location := none }
  (s2, ev)

/-- Result of one `updateAllianceAura` call: the new state, the DramaEvent
constructed in memory by `triggerPlotTwist` (if it ran), and the events
actually published to any timeline or bus — always `[]`, because the
source never publishes the constructed event (the publish step is the
TODO noted at `triggerPlotTwist`). -/
structure AuraUpdateResult where
  state : FactionSystemState
  constructed : Option Types.DramaEvent
  published : List Types.DramaEvent
deriving Repr, DecidableEq

/-- The clamp `Math.max(-10, Math.min(10, (auraScore || 0) + auraDelta))`
of `updateAllianceAura` (`|| 0` on the old score is the identity on
integers). -/
def clampedAura (al : FactionAllianceData) (auraDelta : Int) : Int :=
  max (-10) (min 10 (al.auraScore + auraDelta))

/-- The alliance record after the in-place field updates of
`updateAllianceAura`. -/
def updatedAlliance (al : FactionAllianceData) (auraDelta : Int) (now : Nat) :
    FactionAllianceData :=
  { al with auraScore := clampedAura al auraDelta, lastInteraction := now }

/-- The system state after the in-place alliance mutation of
`updateAllianceAura` (the object found by `Array.find` is mutated, which
updates its one position in the array). -/
def stateAfterAura (s : FactionSystemState) (allianceId : String)
    (al : FactionAllianceData) (auraDelta : Int) (now : Nat) : FactionSystemState :=
  { s with alliances :=
      replaceFirst (fun a => a.id == allianceId) (updatedAlliance al auraDelta now) s.alliances }

/-- Embeds `FactionSystem.updateAllianceAura`: clamp the aura score into
[-10,10], refresh `lastInteraction`, and when the new score is ≤ -8 and
the inline 50% draw `Math.random() < 0.5` passes — the draw is modelled by
the `plotTwistRoll` argument — run `triggerPlotTwist`. -/
def updateAllianceAura (s : FactionSystemState) (allianceId : String)
    (auraDelta : Int) (plotTwistRoll : Bool) (now : Nat) : AuraUpdateResult :=
  match s.alliances.find? (fun a => a.id == allianceId) with
  | none => ⟨s, none, []⟩
  | some alliance =>
    if clampedAura alliance auraDelta ≤ -8 ∧ plotTwistRoll = true then
      ⟨(triggerPlotTwist (stateAfterAura s allianceId alliance auraDelta now)
          (updatedAlliance alliance auraDelta now) now).1,
        some (triggerPlotTwist (stateAfterAura s allianceId alliance auraDelta now)
          (updatedAlliance alliance auraDelta now) now).2,
        []⟩
    else
      ⟨stateAfterAura s allianceId alliance auraDelta now, none, []⟩

theorem updateAllianceAura_none_eq (s : FactionSystemState) (aid : String)
    (delta : Int) (roll : Bool) (now : Nat)
    (hfind : s.alliances.find? (fun a => a.id == aid) = none) :
    updateAllianceAura s aid delta roll now = ⟨s, none, []⟩ := by
  unfold updateAllianceAura
  rw [hfind]

theorem updateAllianceAura_some_eq (s : FactionSystemState) (aid : String)
    (delta : Int) (roll : Bool) (now : Nat) (al : FactionAllianceData)
    (hfind : s.alliances.find? (fun a => a.id == aid) = some al) :
    updateAllianceAura s aid delta roll now =
      if clampedAura al delta ≤ -8 ∧ roll = true then
        ⟨(triggerPlotTwist (stateAfterAura s aid al delta now)
            (updatedAlliance al delta now) now).1,
          some (triggerPlotTwist (stateAfterAura s aid al delta now)
            (updatedAlliance al delta now) now).2,
          []⟩
      else
        ⟨stateAfterAura s aid al delta now, none, []⟩ := by
  unfold updateAllianceAura
  rw [hfind]

theorem clampedAura_bounds (al : FactionAllianceData) (delta : Int) :
    -10 ≤ clampedAura al delta ∧ clampedAura al delta ≤ 10 :=
  ⟨le_max_left _ _, max_le (by norm_num) (min_le_left _ _)⟩

/-- A faction record as `createFaction` builds it, at a given id, name and
member count. -/
def mkFaction (fid nm : String) (mc : Nat) : Faction :=
  { id := fid, name := nm, description := none, emoji := none, power := 10
  , entropy := 0, dramaWins := 0, memberCount := mc, createdAt := 0
  , founderUserId := "u0", color := none }

def joinScenarioState : FactionSystemState :=
  { factions := [("F1", mkFaction "F1" "Alpha" 2), ("F2", mkFaction "F2" "Beta" 1)]
  , userFactions := [("u", "F1"), ("v", "F1")]
  , alliances := [] }

/-- C5 counterexample: user u already belongs to faction F1, yet
`FactionSystem.joinFaction` to F2 is not rejected — it auto-leaves F1,
performs the join, returns true, and afterwards the user's faction is F2,
not F1. -/
theorem joinFaction_switches_counterexample :
    (joinFaction joinScenarioState "u" "F2").map
        (fun r => (r.2, mapGet r.1.userFactions "u")) = some (true, some "F2") := by
  decide

/-- Every faction key/value pair in the map carries its own key as its
`id` (as `createFaction` establishes). -/
def IdCoherent (s : FactionSystemState) : Prop :=
  ∀ p ∈ s.factions, (p : String × Faction).2.id = p.1

theorem dissolveFaction_clean (s : FactionSystemState) (fid : String) (fc : Faction)
    (hpres : mapGet s.factions fid = some fc) (hcoh : IdCoherent s) :
    mapGet (dissolveFaction s fid).factions fid = none ∧
      (∀ f ∈ getAllFactions (dissolveFaction s fid), f.id ≠ fid) ∧
      ∀ a ∈ (dissolveFaction s fid).alliances,
        a.factionIdA ≠ fid ∧ a.factionIdB ≠ fid := by
  unfold dissolveFaction
  rw [hpres]
  simp only [Option.isNone_some, Bool.false_eq_true, if_false]
  refine ⟨mapGet_mapDelete_self _ _, ?_, ?_⟩
  · intro f hf
    unfold getAllFactions at hf
    rw [List.mem_map] at hf
    obtain ⟨p, hp, hpf⟩ := hf
    have hm := mem_mapDelete _ _ _ hp
    have hid := hcoh p hm.1
    rw [← hpf, hid]
    exact hm.2
  · intro a ha
    rw [List.mem_filter] at ha
    have h2 := ha.2
    simp only [Bool.and_eq_true, Bool.not_eq_true', beq_eq_false_iff_ne, ne_eq] at h2
    exact h2

/-- C6: removing the last member of a faction dissolves it — afterwards
the faction is absent from `getAllFactions()` and no alliance references
it.  The hypothesis `fid ≠ ""` excludes the JS-falsy empty-string
faction id, on which `leaveFaction` returns false without dissolving;
ids generated by `createFaction` (`faction-${Date.now()}-...`) are never
empty. -/
theorem leaveFaction_last_member_dissolves (s : FactionSystemState)
    (u fid : String) (fac : Faction)
    (hfid : fid ≠ "")
    (hu : mapGet s.userFactions u = some fid)
    (hf : mapGet s.factions fid = some fac)
    (hmc : fac.memberCount = 1)
    (hcoh : IdCoherent s) :
    ∃ s2, leaveFaction s u = some (s2, true) ∧
      mapGet s2.factions fid = none ∧
      (∀ f ∈ getAllFactions s2, f.id ≠ fid) ∧
      ∀ a ∈ s2.alliances, a.factionIdA ≠ fid ∧ a.factionIdB ≠ fid := by
  have hfacid : fac.id = fid := hcoh (fid, fac) (mapGet_mem _ _ _ hf)
  have hmc2 : (if fac.memberCount == 0 then 1 else fac.memberCount) - 1 = 0 := by
    rw [hmc]
    rfl
  set s2 : FactionSystemState :=
    { s with
      userFactions := mapDelete s.userFactions u,
      factions := mapSet s.factions fid
        { fac with memberCount := (if fac.memberCount == 0 then 1 else fac.memberCount) - 1 } }
    with hs2
  have hred : leaveFaction s u = some (dissolveFaction s2 fid, true) := by
    unfold leaveFaction
    simp only [hu, if_neg hfid, hf, hmc2, hs2]
    rfl
  refine ⟨_, hred, ?_⟩
  have hpres2 : mapGet s2.factions fid =
      some { fac with memberCount := (if fac.memberCount == 0 then 1 else fac.memberCount) - 1 } :=
    mapGet_mapSet_self _ _ _
  have hcoh2 : IdCoherent s2 := by
    intro p hp
    rcases mem_mapSet _ _ _ _ hp with h | h
    · exact hcoh p h
    · rw [h]
      exact hfacid
  exact dissolveFaction_clean s2 fid _ hpres2 hcoh2

def leaveScenarioState : FactionSystemState :=
  { factions := [("F1", mkFaction "F1" "Alpha" 1), ("F2", mkFaction "F2" "Beta" 1)]
  , userFactions := [("u", "F1"), ("w", "F2")]
  , alliances := [⟨"al1", "F1", "F2", 50, 0, 0, 0⟩] }

/-- Witness for C6: a concrete store in which u is the last member of F1
and an alliance references F1. -/
theorem leaveFaction_last_member_dissolves_witness :
    ∃ s2, leaveFaction leaveScenarioState "u" = some (s2, true) ∧
      mapGet s2.factions "F1" = none ∧
      (∀ f ∈ getAllFactions s2, f.id ≠ "F1") ∧
      ∀ a ∈ s2.alliances, a.factionIdA ≠ "F1" ∧ a.factionIdB ≠ "F1" :=
  leaveFaction_last_member_dissolves leaveScenarioState "u" "F1"
    (mkFaction "F1" "Alpha" 1) (by decide) (by decide) (by decide) (by decide)
    (by unfold IdCoherent; decide)

def auraScenarioState : FactionSystemState :=
  { factions := [("F1", mkFaction "F1" "Alpha" 1), ("F2", mkFaction "F2" "Beta" 1)]
  , userFactions := [("a", "F1"), ("b", "F2")]
  , alliances := [⟨"al1", "F1", "F2", 50, 0, 0, -7⟩] }

/-- C7 counterexample: an aura update that takes the F1/F2 alliance from
-7 to -8 with the 50% draw forced true does delete the alliance, but no
DramaEvent is ever published (the publish step is an unimplemented TODO),
and the event record that is constructed has no `type` and no
`factionsInvolved` — the two faction ids sit in `participants`. -/
theorem plot_twist_counterexample :
    (updateAllianceAura auraScenarioState "al1" (-1) true 99).published = [] ∧
      (updateAllianceAura auraScenarioState "al1" (-1) true 99).constructed.map
        Types.DramaEvent.factionsInvolved = some none ∧
      (updateAllianceAura auraScenarioState "al1" (-1) true 99).constructed.map
        Types.DramaEvent.type = some none ∧
      (updateAllianceAura auraScenarioState "al1" (-1) true 99).state.alliances = [] := by
  refine ⟨by decide, by decide, by decide, by decide⟩

/-- C7 amended: every alliance left in place by `updateAllianceAura` is
either untouched or has its aura clamped into [-10,10]; and when the
found alliance's clamped score reaches -8 or below and the (injected)
roll passes, the alliance is deleted and exactly one DramaEvent is
constructed in memory — with both factions in `participants`, trigger
"faction_plot_twist", and no `type`/`factionsInvolved` — while nothing is
published. -/
theorem updateAllianceAura_clamps_and_plot_twist (s : FactionSystemState)
    (aid : String) (delta : Int) (roll : Bool) (now : Nat) :
    (∀ a ∈ (updateAllianceAura s aid delta roll now).state.alliances,
        a ∈ s.alliances ∨ (-10 ≤ a.auraScore ∧ a.auraScore ≤ 10)) ∧
      (∀ al, s.alliances.find? (fun a => a.id == aid) = some al →
        max (-10) (min 10 (al.auraScore + delta)) ≤ -8 → roll = true →
        ((∀ a ∈ (updateAllianceAura s aid delta roll now).state.alliances, a.id ≠ al.id) ∧
          ∃ ev, (updateAllianceAura s aid delta roll now).constructed = some ev ∧
            ev.participants = [al.factionIdA, al.factionIdB] ∧
            ev.trigger = "faction_plot_twist" ∧ ev.type = none ∧
            ev.factionsInvolved = none ∧
            (updateAllianceAura s aid delta roll now).published = [])) := by
  have hmemAfter : ∀ (al : FactionAllianceData) (a : FactionAllianceData),
      a ∈ (stateAfterAura s aid al delta now).alliances →
      a ∈ s.alliances ∨ (-10 ≤ a.auraScore ∧ a.auraScore ≤ 10) := by
    intro al a ha
    unfold stateAfterAura at ha
    rcases mem_replaceFirst _ _ _ _ ha with h | h
    · exact Or.inl h
    · right
      rw [h]
      exact clampedAura_bounds al delta
  constructor
  · intro a ha
    cases hfind : s.alliances.find? (fun a => a.id == aid) with
    | none =>
      rw [updateAllianceAura_none_eq s aid delta roll now hfind] at ha
      exact Or.inl ha
    | some al =>
      rw [updateAllianceAura_some_eq s aid delta roll now al hfind] at ha
      by_cases hc : clampedAura al delta ≤ -8 ∧ roll = true
      · rw [if_pos hc] at ha
        unfold triggerPlotTwist at ha
        simp only at ha
        rw [List.mem_filter] at ha
        exact hmemAfter al a ha.1
      · rw [if_neg hc] at ha
        exact hmemAfter al a ha
  · intro al hfind hscore hroll
    have hc : clampedAura al delta ≤ -8 ∧ roll = true := ⟨hscore, hroll⟩
    rw [updateAllianceAura_some_eq s aid delta roll now al hfind, if_pos hc]
    constructor
    · intro a ha
      unfold triggerPlotTwist at ha
      simp only at ha
      rw [List.mem_filter] at ha
      have h2 := ha.2
      simpa [updatedAlliance] using h2
    · exact ⟨_, rfl, rfl, rfl, rfl, rfl, rfl⟩

/-- Witness for C7 at the concrete -7 alliance pushed to -8 with the roll
forced true. -/
theorem updateAllianceAura_clamps_and_plot_twist_witness :
    (∀ a ∈ (updateAllianceAura auraScenarioState "al1" (-1) true 99).state.alliances,
        a ∈ auraScenarioState.alliances ∨ (-10 ≤ a.auraScore ∧ a.auraScore ≤ 10)) ∧
      ((∀ a ∈ (updateAllianceAura auraScenarioState "al1" (-1) true 99).state.alliances,
          a.id ≠ "al1") ∧
        ∃ ev, (updateAllianceAura auraScenarioState "al1" (-1) true 99).constructed = some ev ∧
          ev.participants = ["F1", "F2"] ∧
          ev.trigger = "faction_plot_twist" ∧ ev.type = none ∧
          ev.factionsInvolved = none ∧
          (updateAllianceAura auraScenarioState "al1" (-1) true 99).published = []) :=
  ⟨(updateAllianceAura_clamps_and_plot_twist auraScenarioState "al1" (-1) true 99).1,
   (updateAllianceAura_clamps_and_plot_twist auraScenarioState "al1" (-1) true 99).2
     ⟨"al1", "F1", "F2", 50, 0, 0, -7⟩ (by decide) (by decide) rfl⟩

end FactionSys

/-! ## Database-backed faction plugin (src/plugins/faction-system/index.ts)

The Supabase `factions` and `faction_members` tables are modelled as row
lists; the query operators used by the handlers are `eq` (exact,
case-sensitive SQL equality), `ilike` (case-insensitive match), `insert`
(append) and `update ... eq('id', ...)`.  The Discord-side effects
(roles, channels, embeds, reply text) are collapsed to the reply
variant the handler sends. -/

namespace FactionDbPlugin

structure FactionRow where
  id : String
  name : String
  description : String
  leader_id : String
  member_count : Nat
  power : Int
deriving Repr, DecidableEq

structure MemberRow where
  faction_id : String
  user_id : String
  role : String
deriving Repr, DecidableEq

structure FactionDb where
  factions : List FactionRow
  members : List MemberRow
deriving Repr, DecidableEq

inductive CreateReply
  | noName
  | badLength
  | duplicateName
  | created
deriving Repr, DecidableEq

def minFactionNameLength : Nat := 3
def maxFactionNameLength : Nat := 24

/-- Embeds `handleCreateFaction` (store logic; the ManageRoles permission
gate and the role/channel creation are Discord-side).  In source order:
missing name; name length outside [3,24]; duplicate check
`.from('factions').select('name').eq('name', name)` — `eq` is exact
case-sensitive equality; then insert the faction row (random color/emoji
and timestamps omitted) and the creator's leader membership row.
`newId` stands for the generated `uuidv4()`. -/
def handleCreateFaction (db : FactionDb) (authorId name description newId : String) :
    FactionDb × CreateReply :=
  if name = "" then (db, CreateReply.noName)
  else if name.length < minFactionNameLength ∨ maxFactionNameLength < name.length then
    (db, CreateReply.badLength)
  else if db.factions.any (fun f => f.name == name) then
    (db, CreateReply.duplicateName)
  else
    let row : FactionRow :=
      { id := newId, name := name
      , description := if description = "" then "The " ++ name ++ " faction" else description
      , leader_id := authorId, member_count := 1, power := 10 }
    let mrow : MemberRow := { faction_id := newId, user_id := authorId, role := "leader" }
    ({ factions := db.factions ++ [row], members := db.members ++ [mrow] },
      CreateReply.created)

/-- The store after creating "Wolves" in an empty database. -/
def wolvesStep1 : FactionDb × CreateReply :=
  handleCreateFaction ⟨[], []⟩ "userA" "Wolves" "" "f1"

/-- C4 counterexample: after creating "Wolves", creating "wolves"
(case-insensitive collision) is NOT rejected — the duplicate check uses
exact equality — so the second call succeeds and two factions remain in
the store. -/
theorem createFaction_case_collision_counterexample :
    wolvesStep1.2 = CreateReply.created ∧
      (handleCreateFaction wolvesStep1.1 "userB" "wolves" "" "f2").2 = CreateReply.created ∧
      (handleCreateFaction wolvesStep1.1 "userB" "wolves" "" "f2").1.factions.length = 2 := by
  refine ⟨by decide, by decide, by decide⟩

/-- C4 amended: the duplicate check is case-sensitive — `createFaction`
fails with the duplicate-name error, leaving the store unchanged, exactly
when a faction with the very same name string already exists. -/
theorem createFaction_exact_duplicate (db : FactionDb) (u nm d nid : String)
    (hlen : minFactionNameLength ≤ nm.length ∧ nm.length ≤ maxFactionNameLength)
    (hdup : ∃ f ∈ db.factions, f.name = nm) :
    handleCreateFaction db u nm d nid = (db, CreateReply.duplicateName) := by
  have hne : ¬ nm = "" := by
    intro h
    rw [h] at hlen
    have h3 : (3 : Nat) ≤ 0 := hlen.1
    omega
  have hlen2 : ¬ (nm.length < minFactionNameLength ∨ maxFactionNameLength < nm.length) := by
    unfold minFactionNameLength maxFactionNameLength at hlen ⊢
    omega
  have hany : db.factions.any (fun f => f.name == nm) = true := by
    rw [List.any_eq_true]
    obtain ⟨f, hf, hfn⟩ := hdup
    exact ⟨f, hf, by simp [hfn]⟩
  unfold handleCreateFaction
  rw [if_neg hne, if_neg hlen2, if_pos hany]

/-- Witness for C4's amended theorem: exact-name duplicate "Wolves" after
"Wolves". -/
theorem createFaction_exact_duplicate_witness :
    minFactionNameLength ≤ "Wolves".length ∧
      "Wolves".length ≤ maxFactionNameLength ∧
      handleCreateFaction wolvesStep1.1 "userB" "Wolves" "" "f2" =
        (wolvesStep1.1, CreateReply.duplicateName) :=
  ⟨by decide, by decide,
   createFaction_exact_duplicate wolvesStep1.1 "userB" "Wolves" "" "f2"
     ⟨by decide, by decide⟩ (by decide)⟩

inductive JoinReply
  | noName
  | notFound
  | alreadyMember
  | mustLeaveFirst
  | joined
deriving Repr, DecidableEq

/-- The found-faction branch of `handleJoinFaction`: membership row in
the target faction ("already a member"); membership row in any faction
("must leave your current faction first"); otherwise insert the member
row and bump the faction's `member_count` via `update ... eq('id', ...)`. -/
def joinWithFaction (db : FactionDb) (userId : String) (faction : FactionRow) :
    FactionDb × JoinReply :=
  if db.members.any (fun m => m.faction_id == faction.id && m.user_id == userId) then
    (db, JoinReply.alreadyMember)
  else if db.members.any (fun m => m.user_id == userId) then
    (db, JoinReply.mustLeaveFirst)
  else
    ({ factions := db.factions.map (fun f =>
          if f.id == faction.id then { f with member_count := f.member_count + 1 } else f)
     , members := db.members ++
          [{ faction_id := faction.id, user_id := userId, role := "member" }] },
      JoinReply.joined)

/-- Embeds `handleJoinFaction` (store logic).  In source order: missing
name; faction lookup with `ilike` (case-insensitive); then the membership
checks and insertion of `joinWithFaction`. -/
def handleJoinFaction (db : FactionDb) (userId factionName : String) :
    FactionDb × JoinReply :=
  if factionName = "" then (db, JoinReply.noName)
  else
    match db.factions.find? (fun f => f.name.toLower == factionName.toLower) with
    | none => (db, JoinReply.notFound)
    | some faction => joinWithFaction db userId faction

theorem handleJoinFaction_notFound_eq (db : FactionDb) (u fname : String)
    (h0 : ¬ fname = "")
    (hfind : db.factions.find? (fun f => f.name.toLower == fname.toLower) = none) :
    handleJoinFaction db u fname = (db, JoinReply.notFound) := by
  unfold handleJoinFaction
  rw [if_neg h0, hfind]

theorem handleJoinFaction_found_eq (db : FactionDb) (u fname : String)
    (faction : FactionRow) (h0 : ¬ fname = "")
    (hfind : db.factions.find? (fun f => f.name.toLower == fname.toLower) = some faction) :
    handleJoinFaction db u fname = joinWithFaction db u faction := by
  unfold handleJoinFaction
  rw [if_neg h0, hfind]

/-- C5 amended: the plugin-level join handler rejects a join request from
a user who already has any faction membership — the store is left
unchanged and the join is not performed. -/
theorem handleJoinFaction_rejects_member (db : FactionDb) (u fname : String)
    (hmem : ∃ m ∈ db.members, m.user_id = u) :
    (handleJoinFaction db u fname).1 = db ∧
      (handleJoinFaction db u fname).2 ≠ JoinReply.joined := by
  by_cases h0 : fname = ""
  · unfold handleJoinFaction
    rw [if_pos h0]
    exact ⟨rfl, fun h => JoinReply.noConfusion h⟩
  · cases hfind : db.factions.find? (fun f => f.name.toLower == fname.toLower) with
    | none =>
      rw [handleJoinFaction_notFound_eq db u fname h0 hfind]
      exact ⟨rfl, fun h => JoinReply.noConfusion h⟩
    | some faction =>
      rw [handleJoinFaction_found_eq db u fname faction h0 hfind]
      unfold joinWithFaction
      by_cases h1 : (db.members.any
          (fun m => m.faction_id == faction.id && m.user_id == u)) = true
      · rw [if_pos h1]
        exact ⟨rfl, fun h => JoinReply.noConfusion h⟩
      · rw [if_neg h1]
        have h2 : db.members.any (fun m => m.user_id == u) = true := by
          rw [List.any_eq_true]
          obtain ⟨m, hm, hmu⟩ := hmem
          exact ⟨m, hm, by simp [hmu]⟩
        rw [if_pos h2]
        exact ⟨rfl, fun h => JoinReply.noConfusion h⟩

def joinScenarioDb : FactionDb :=
  { factions :=
      [⟨"F1", "Alpha", "The Alpha faction", "v", 2, 10⟩,
       ⟨"F2", "Beta", "The Beta faction", "w", 1, 10⟩]
  , members :=
      [⟨"F1", "v", "leader"⟩, ⟨"F1", "u", "member"⟩, ⟨"F2", "w", "leader"⟩] }

/-- Witness for C5's amended theorem: u, a member of F1, asks to join
Beta (F2) and is rejected with the store unchanged. -/
theorem handleJoinFaction_rejects_member_witness :
    (handleJoinFaction joinScenarioDb "u" "Beta").1 = joinScenarioDb ∧
      (handleJoinFaction joinScenarioDb "u" "Beta").2 ≠ JoinReply.joined :=
  handleJoinFaction_rejects_member joinScenarioDb "u" "Beta"
    ⟨⟨"F1", "u", "member"⟩, by decide, rfl⟩

end FactionDbPlugin

/-! ## Split-vote reaction pattern (`analyzeReactionPatterns`) -/

/-- JS `reaction.emoji.name || 'unknown'` — `null` and the empty string
are both falsy. -/
def emojiName (n : Option String) : String :=
  match n with
  | none => "unknown"
  | some s => if s = "" then "unknown" else s

/-- One step of the reaction tally:
`emojiCounts.set(name, (emojiCounts.get(name) || 0) + 1)`. -/
def bumpCount (m : List (String × Nat)) (k : String) : List (String × Nat) :=
  mapSet m k ((mapGet m k).getD 0 + 1)

/-- The per-emoji tally over the buffered reaction events of one
message. -/
def emojiCounts (names : List (Option String)) : List (String × Nat) :=
  names.foldl (fun m n => bumpCount m (emojiName n)) []

/-- `Math.max(...counts)` (used only on non-empty tallies). -/
def listMax (l : List Nat) : Nat := l.foldl max 0

/-- `Math.min(...counts)` (used only on non-empty tallies). -/
def listMin (l : List Nat) : Nat :=
  match l with
  | [] => 0
  | x :: t => t.foldl min x

/-- Embeds the split-vote branch of
`EventCaptureEngine.analyzeReactionPatterns`: at least 2 distinct emojis
(`emojiCounts.size >= 2`) and `min > 3 && min / max > 0.8`.  The
floating-point ratio test `min / max > 0.8` agrees with the exact
rational test `5 * min > 4 * max` for all counts reachable under the
500-entry reaction buffer (the gap between the double nearest 0.8 and
4/5 is ~4.4e-17, far below 1/(5*500)). -/
def splitVoteDetected (names : List (Option String)) : Bool :=
  let counts := (emojiCounts names).map Prod.snd
  if 2 ≤ counts.length then
    decide (3 < listMin counts) && decide (4 * listMax counts < 5 * listMin counts)
  else false

/-- The split-vote criterion as the specification words it: at least two
distinct reaction emojis, each with count greater than 3, and the smaller
count within 80% of the larger — "within" read inclusively, i.e.
`min ≥ 0.8 * max`. -/
def splitVoteSpec (names : List (Option String)) : Prop :=
  2 ≤ ((emojiCounts names).map Prod.snd).length ∧
    (∀ c ∈ (emojiCounts names).map Prod.snd, 3 < c) ∧
    4 * listMax ((emojiCounts names).map Prod.snd) ≤
      5 * listMin ((emojiCounts names).map Prod.snd)

/-- Reactions 4 x "up" and 5 x "down": the smaller count is exactly 80%
of the larger. -/
def splitVoteBoundaryInput : List (Option String) :=
  [some "up", some "up", some "up", some "up",
   some "down", some "down", some "down", some "down", some "down"]

/-- C9 counterexample: with counts 4 and 5 the smaller count is within
80% of the larger (4 = 0.8 * 5) and both exceed 3, yet the detector does
not report a split vote, because the source comparison `min / max > 0.8`
is strict. -/
theorem splitVote_boundary_counterexample :
    splitVoteSpec splitVoteBoundaryInput ∧
      splitVoteDetected splitVoteBoundaryInput = false := by
  constructor
  · unfold splitVoteSpec
    decide
  · decide

theorem lt_foldl_min_iff (t : List Nat) (x k : Nat) :
    k < t.foldl min x ↔ k < x ∧ ∀ c ∈ t, k < c := by
  induction t generalizing x with
  | nil => simp
  | cons y t ih =>
    rw [List.foldl_cons, ih]
    constructor
    · rintro ⟨h1, h2⟩
      rw [lt_min_iff] at h1
      refine ⟨h1.1, ?_⟩
      intro c hc
      rcases List.mem_cons.mp hc with h | h
      · rw [h]; exact h1.2
      · exact h2 c h
    · rintro ⟨h1, h2⟩
      refine ⟨lt_min_iff.mpr ⟨h1, h2 y (List.mem_cons_self _ _)⟩, ?_⟩
      intro c hc
      exact h2 c (List.mem_cons_of_mem _ hc)

theorem lt_listMin_iff (l : List Nat) (k : Nat) (hne : l ≠ []) :
    k < listMin l ↔ ∀ c ∈ l, k < c := by
  match l with
  | [] => exact absurd rfl hne
  | x :: t =>
    unfold listMin
    rw [lt_foldl_min_iff]
    constructor
    · rintro ⟨h1, h2⟩
      intro c hc
      rcases List.mem_cons.mp hc with h | h
      · rw [h]; exact h1
      · exact h2 c h
    · intro h
      exact ⟨h x (List.mem_cons_self _ _), fun c hc => h c (List.mem_cons_of_mem _ hc)⟩

/-- C9 amended: the detector reports a split vote exactly when at least 2
distinct reaction emojis are tallied, every tallied count exceeds 3, and
the smaller count is STRICTLY greater than 80% of the larger
(`5 * min > 4 * max`). -/
theorem splitVoteDetected_iff (names : List (Option String)) :
    splitVoteDetected names = true ↔
      (2 ≤ ((emojiCounts names).map Prod.snd).length ∧
        (∀ c ∈ (emojiCounts names).map Prod.snd, 3 < c) ∧
        4 * listMax ((emojiCounts names).map Prod.snd) <
          5 * listMin ((emojiCounts names).map Prod.snd)) := by
  unfold splitVoteDetected
  by_cases hlen : 2 ≤ ((emojiCounts names).map Prod.snd).length
  · rw [if_pos hlen]
    have hne : (emojiCounts names).map Prod.snd ≠ [] := by
      intro h
      rw [h] at hlen
      simp at hlen
    simp only [Bool.and_eq_true, decide_eq_true_eq]
    rw [lt_listMin_iff _ _ hne]
    constructor
    · rintro ⟨h1, h2⟩
      exact ⟨hlen, h1, h2⟩
    · rintro ⟨_, h1, h2⟩
      exact ⟨h1, h2⟩
  · rw [if_neg hlen]
    simp only [Bool.false_eq_true, false_iff]
    intro h
    exact hlen h.1

end Catalyst
